import Mathlib

set_option autoImplicit false

/-!
Shallow embedding of the `vsock` package of multiverse-os/vcable.

The OS syscall layer (bind, listen, connect, accept4, getsockname,
set-nonblocking, shutdown, close, ioctl) is treated as an oracle: each
embedded function takes the outcomes the OS would produce as explicit
arguments and mirrors the Go control flow on them.  Go `error` values are
modelled by the inductive `GoErr`; `nil` errors by `Option GoErr`.
-/

namespace Vcable

/-! Constants copied from the source (part_002 and the fd layer). -/

/-- Hypervisor context ID (part_002). -/
def Hypervisor : Nat := 0x0

/-- Host context ID (part_002). -/
def Host : Nat := 0x2

/-- Reserved context ID (part_002). -/
def cidReserved : Nat := 0x1

/-- shutRd, copied from unix.SHUT_RD (part_002). -/
def shutRd : Nat := 0

/-- shutWr, copied from unix.SHUT_WR (part_002). -/
def shutWr : Nat := 1

/-- unix.SHUT_RD on Linux. -/
def SHUT_RD : Nat := 0

/-- unix.SHUT_WR on Linux. -/
def SHUT_WR : Nat := 1

/-- ebadf errno constant (part_002). -/
def ebadf : Nat := 9

/-- enotconn errno constant (part_002). -/
def enotconn : Nat := 107

/-- unix.EAGAIN on Linux. -/
def eagain : Nat := 11

/-- unix.ECONNABORTED on Linux. -/
def econnaborted : Nat := 103

/-- Location of the vsock device (part_002). -/
def devVsock : String := "/dev/vsock"

/-- The vsock network name reported in net.OpError (part_002). -/
def network : String := "vsock"

/-- unix.VMADDR_PORT_ANY on Linux (the u32 wildcard port). -/
def VMADDR_PORT_ANY : Nat := 4294967295

/-- unix.SOMAXCONN on Linux (0x1000). -/
def SOMAXCONN : Nat := 4096

/-! Go error values. -/

/-- Model of a Go `error` value as the classifier distinguishes them:
the io.EOF sentinel, the os.ErrClosed sentinel, a syscall.Errno, an
os.PathError (operation, path, wrapped error), or any other error
characterised by its message. -/
inductive GoErr where
  | eof
  | errClosed
  | errno (n : Nat)
  | pathError (op : String) (path : String) (inner : GoErr)
  | msg (s : String)
deriving DecidableEq

/-- Model of syscall.Errno.Error() for the error numbers the development uses. -/
def errnoMessage (n : Nat) : String :=
  if n = 4 then "interrupted system call"
  else if n = 9 then "bad file descriptor"
  else if n = 11 then "resource temporarily unavailable"
  else if n = 24 then "too many open files"
  else if n = 98 then "address already in use"
  else if n = 103 then "software caused connection abort"
  else if n = 107 then "transport endpoint is not connected"
  else if n = 111 then "connection refused"
  else "errno " ++ toString n

/-- Model of Go err.Error() over `GoErr` (PathError renders as op, path,
colon, wrapped message, as os.PathError.Error does). -/
def errMessage : GoErr → String
  | .eof => "EOF"
  | .errClosed => "file already closed"
  | .errno n => errnoMessage n
  | .pathError op path inner => op ++ " " ++ path ++ ": " ++ errMessage inner
  | .msg s => s

/-- Decidable check that the first list is a prefix of the second. -/
def prefixOf : List Char → List Char → Bool
  | [], _ => true
  | _ :: _, [] => false
  | a :: as, b :: bs => a == b && prefixOf as bs

/-- Decidable check that the first list occurs as a contiguous sublist of
the second. -/
def subIn (needle : List Char) : List Char → Bool
  | [] => needle.isEmpty
  | c :: rest => prefixOf needle (c :: rest) || subIn needle rest

/-- Model of strings.Contains(s, sub). -/
def containsSubstr (s sub : String) : Bool := subIn sub.data s.data

/-- Model of isErrno (fd layer): recognises only the ebadf and enotconn
parameters, anything else yields false. -/
def isErrno (e : GoErr) (errno : Nat) : Bool :=
  if errno = ebadf then e == .errno ebadf
  else if errno = enotconn then e == .errno enotconn
  else false

/-! Addresses (part_002). -/

/-- Addr: a vsock address, context ID plus port (both uint32 in Go). -/
structure Addr where
  ContextID : Nat
  Port : Nat
deriving DecidableEq

/-- Model of Addr.String(): renders role(contextID):port, role chosen by
the context ID value alone. -/
def Addr.string (a : Addr) : String :=
  let host :=
    if a.ContextID = Hypervisor then "hypervisor(" ++ toString a.ContextID ++ ")"
    else if a.ContextID = cidReserved then "reserved(" ++ toString a.ContextID ++ ")"
    else if a.ContextID = Host then "host(" ++ toString a.ContextID ++ ")"
    else "vm(" ++ toString a.ContextID ++ ")"
  host ++ ":" ++ toString a.Port

/-- Model of Addr.fileName(): network name, colon, address string. -/
def Addr.fileName (a : Addr) : String := network ++ ":" ++ a.string

/-! The error classifier (part_002, opError and errOp). -/

/-- The operation tags (Go errOp constants). -/
inductive ErrOp where
  | opAccept
  | opClose
  | opDial
  | opListen
  | opRawControl
  | opRawRead
  | opRawWrite
  | opRead
  | opSet
  | opSyscallConn
  | opWrite
deriving DecidableEq

/-- Model of errOp.String(). -/
def ErrOp.toString : ErrOp → String
  | .opAccept => "accept"
  | .opClose => "close"
  | .opDial => "dial"
  | .opListen => "listen"
  | .opRawControl => "raw-control"
  | .opRawRead => "raw-read"
  | .opRawWrite => "raw-write"
  | .opRead => "read"
  | .opSet => "set"
  | .opSyscallConn => "syscall-conn"
  | .opWrite => "write"

/-- The case split of opError's address switch: the first case list
(opClose, opDial, opRawRead, opRawWrite, opRead, opWrite) reports
source = local and addr = remote; the second case list (opAccept,
opListen, opRawControl, opSet, opSyscallConn) reports only addr = local. -/
def ErrOp.sourceful : ErrOp → Bool
  | .opClose | .opDial | .opRawRead | .opRawWrite | .opRead | .opWrite => true
  | .opAccept | .opListen | .opRawControl | .opSet | .opSyscallConn => false

/-- Model of a net.OpError as opError constructs it. -/
structure OpError where
  op : String
  net : String
  source : Option Addr
  addr : Option Addr
  cause : GoErr
deriving DecidableEq

/-- An error surfaced by the package: either a bare Go error (io.EOF) or a
net.OpError envelope. -/
inductive Err where
  | go (e : GoErr)
  | opErr (o : OpError)
deriving DecidableEq

/-- Model of the os.PathError unwrapping at the top of opError: a PathError
whose path is not /dev/vsock is replaced by its inner error. -/
def unwrapPath : GoErr → GoErr
  | .pathError op path inner =>
    if path = devVsock then .pathError op path inner else inner
  | e => e

/-- The first case of opError's classification switch: err == io.EOF or
isErrno(err, enotconn). -/
def isEOFLike (e : GoErr) : Bool := e == .eof || isErrno e enotconn

/-- The second case of opError's classification switch: err == os.ErrClosed,
isErrno(err, ebadf), or the error text contains "use of closed". -/
def isClosedLike (e : GoErr) : Bool :=
  e == .errClosed || isErrno e ebadf || containsSubstr (errMessage e) "use of closed"

/-- The closed-connection normalization of opError: a closed-like error is
replaced by errors.New("use of closed network connection"). -/
def normalizeClosed (e : GoErr) : GoErr :=
  if isClosedLike e then .msg "use of closed network connection" else e

/-- Model of opError (part_002): nil passes through; a PathError off the
vsock device is unwrapped; EOF-like errors collapse to bare io.EOF;
closed-like errors are normalized; everything else is wrapped unmodified
in a net.OpError whose source/addr fields follow the operation class. -/
def opError (op : ErrOp) (err : Option GoErr) (localA remoteA : Option Addr) : Option Err :=
  match err with
  | none => none
  | some e0 =>
    if isEOFLike (unwrapPath e0) then some (.go .eof)
    else some (.opErr
      { op := op.toString
        net := network
        source := if op.sourceful then localA else none
        addr := if op.sourceful then remoteA else localA
        cause := normalizeClosed (unwrapPath e0) })

/-! The accept path (fd layer accept4 and listener.Accept). -/

/-- Model of unix.SockaddrVM. -/
structure SockaddrVM where
  CID : Nat
  Port : Nat
deriving DecidableEq

/-- One outcome of an invocation of the unix.Accept4 syscall: a new fd with
the peer sockaddr, or an error. -/
inductive AcceptOutcome where
  | ok (newFD : Int) (sa : SockaddrVM)
  | err (e : GoErr)
deriving DecidableEq

/-- The switch inside the accept4 closure: EAGAIN and ECONNABORTED make the
closure return false (so the poller waits and retries); anything else,
including success, makes it return true (stop). -/
def isTransient : AcceptOutcome → Bool
  | .err e => e == .errno eagain || e == .errno econnaborted
  | .ok _ _ => false

/-- The variables the accept4 closure assigns on each invocation:
newFD, socketAddress, err.  unix.Accept4 yields -1 and a nil sockaddr on
error. -/
structure AcceptVars where
  newFD : Int
  sa : Option SockaddrVM
  err : Option GoErr
deriving DecidableEq

/-- The assignment the closure performs for one syscall outcome. -/
def setVars : AcceptOutcome → AcceptVars
  | .ok fd sa => ⟨fd, some sa, none⟩
  | .err e => ⟨-1, none, some e⟩

/-- Model of rawConn.Read driving the accept4 closure: the closure runs on
each successive syscall outcome, and the poller re-invokes it as long as
it returns false (transient outcome).  The final variable state is that of
the last outcome executed. -/
def runAcceptRead : List AcceptOutcome → AcceptVars → AcceptVars
  | [], v => v
  | o :: rest, _ => if isTransient o then runAcceptRead rest (setVars o) else setVars o

/-- The first non-transient outcome of a syscall outcome sequence, if any. -/
def firstNonTransient : List AcceptOutcome → Option AcceptOutcome
  | [] => none
  | o :: rest => if isTransient o then firstNonTransient rest else some o

/-- Model of sysListenFD.accept4: a failure of f.SyscallConn() is returned;
otherwise the readiness loop runs and the function returns the captured
newFD and socketAddress together with a nil error — the final
`return newFD, socketAddress, nil` of the source discards the captured
err unconditionally. -/
def sysListenFD.accept4 (syscallConnErr : Option GoErr) (outs : List AcceptOutcome) :
    Int × Option SockaddrVM × Option GoErr :=
  match syscallConnErr with
  | some e => (0, none, some e)
  | none =>
    let v := runAcceptRead outs ⟨0, none, none⟩
    (v.newFD, v.sa, none)

/-- Result of listener.Accept: a connection, an error value, or a Go panic
(the unchecked type assertion sa.(*unix.SockaddrVM) on a nil interface). -/
inductive LAcceptResult where
  | conn (localAddr remote : Addr)
  | err (e : GoErr)
  | panicked
deriving DecidableEq

/-- Model of listener.Accept (part_001): calls fd.Accept4, surfaces its
error; otherwise performs the type assertion on the returned sockaddr
(panicking when it is nil), builds the remote Addr, and calls newConn,
whose SetNonblocking outcome is `snb`. -/
def listener.Accept (laddr : Addr) (syscallConnErr : Option GoErr)
    (outs : List AcceptOutcome) (snb : Option GoErr) : LAcceptResult :=
  let r := sysListenFD.accept4 syscallConnErr outs
  match r.2.2 with
  | some e => .err e
  | none =>
    match r.2.1 with
    | none => .panicked
    | some savm =>
      match snb with
      | some e => .err e
      | none => .conn laddr ⟨savm.CID, savm.Port⟩

/-- Result of VsockListener.Accept: the inner error, if any, is wrapped by
opError with tag opAccept and the listener's own address. -/
inductive VAcceptResult where
  | conn (localAddr remote : Addr)
  | err (e : Option Err)
  | panicked
deriving DecidableEq

/-- Model of VsockListener.Accept (part_002): wraps listener.Accept errors
via self.opError(opAccept, err) = opError(opAccept, err, self.Addr(), nil);
a panic propagates. -/
def VsockListener.Accept (laddr : Addr) (syscallConnErr : Option GoErr)
    (outs : List AcceptOutcome) (snb : Option GoErr) : VAcceptResult :=
  match listener.Accept laddr syscallConnErr outs snb with
  | .err e => .err (opError .opAccept (some e) (some laddr) none)
  | .panicked => .panicked
  | .conn a b => .conn a b

/-! The listen path (part_001, listenLinux). -/

/-- Model of VsockListener's observable state: the Addr stored in the
wrapped listener. -/
structure VsockListener where
  addr : Addr
deriving DecidableEq

/-- Oracle for the OS syscalls listenLinux performs. -/
structure ListenOS where
  bindResult : SockaddrVM → Option GoErr
  listenResult : Nat → Option GoErr
  getsocknameResult : Except GoErr SockaddrVM
  setNonblockingResult : Option GoErr

/-- The observable trace of a listenLinux run: the sockaddr passed to Bind
(if Bind was reached), the backlog passed to Listen (if Listen was
reached), whether the deferred EarlyClose fired, and the returned value. -/
structure ListenTrace where
  boundAddr : Option SockaddrVM
  listenBacklog : Option Nat
  earlyClosed : Bool
  result : Except GoErr VsockListener

/-- Model of listenLinux (part_001).  The function declares `var err error`
and defers `if err != nil { lfd.EarlyClose() }`, but the statements
`if err := lfd.Bind(sa); err != nil`, `if err := lfd.Listen(...); err != nil`
and `if err := lfd.SetNonblocking(...); err != nil` each declare a new,
if-scoped err that shadows the outer variable, so on those three failure
paths the deferred cleanup observes a nil outer err and EarlyClose does
not run.  Only `lsa, err := lfd.Getsockname()` assigns the outer err, so
only a Getsockname failure triggers EarlyClose.  Port 0 is first replaced
by unix.VMADDR_PORT_ANY; Listen is invoked with unix.SOMAXCONN; the
returned Addr is built from the Getsockname result. -/
def listenLinux (os : ListenOS) (cid port : Nat) : ListenTrace :=
  let sa : SockaddrVM := ⟨cid, if port = 0 then VMADDR_PORT_ANY else port⟩
  match os.bindResult sa with
  | some e => ⟨some sa, none, false, .error e⟩
  | none =>
    match os.listenResult SOMAXCONN with
    | some e => ⟨some sa, some SOMAXCONN, false, .error e⟩
    | none =>
      match os.getsocknameResult with
      | .error e => ⟨some sa, some SOMAXCONN, true, .error e⟩
      | .ok lsa =>
        match os.setNonblockingResult with
        | some e => ⟨some sa, some SOMAXCONN, false, .error e⟩
        | none => ⟨some sa, some SOMAXCONN, false, .ok ⟨⟨lsa.CID, lsa.Port⟩⟩⟩

/-! The dial path (framework/vsock/connection.go, dialLinux). -/

/-- Model of Conn's observable state: local and remote Addr. -/
structure Conn where
  localAddr : Addr
  remote : Addr
deriving DecidableEq

/-- Oracle for the OS syscalls dialLinux performs. -/
structure DialOS where
  connectResult : SockaddrVM → Option GoErr
  getsocknameResult : Except GoErr SockaddrVM
  setNonblockingResult : Option GoErr

/-- The observable trace of a dialLinux run. -/
structure DialTrace where
  earlyClosed : Bool
  result : Except GoErr Conn

/-- Model of dialLinux (connection.go).  Its error is a named return value
read by the deferred `if err != nil { cfd.EarlyClose() }`, and every
return statement assigns it, so EarlyClose fires on each of the connect,
getsockname and set-nonblocking (inside newConn) failure paths. -/
def dialLinux (os : DialOS) (cid port : Nat) : DialTrace :=
  match os.connectResult ⟨cid, port⟩ with
  | some e => ⟨true, .error e⟩
  | none =>
    match os.getsocknameResult with
    | .error e => ⟨true, .error e⟩
    | .ok lsa =>
      match os.setNonblockingResult with
      | some e => ⟨true, .error e⟩
      | none => ⟨false, .ok ⟨⟨lsa.CID, lsa.Port⟩, ⟨cid, port⟩⟩⟩

/-! Connection operations (part_002) over the fd-layer oracle. -/

/-- Model of Conn.Read: forwards the underlying (n, err) pair, wrapping a
non-nil error via opError with tag opRead and the connection's addresses. -/
def Conn.Read (c : Conn) (underlying : Int × Option GoErr) : Int × Option Err :=
  match underlying.2 with
  | none => (underlying.1, none)
  | some e => (underlying.1, opError .opRead (some e) (some c.localAddr) (some c.remote))

/-- Model of Conn.Write. -/
def Conn.Write (c : Conn) (underlying : Int × Option GoErr) : Int × Option Err :=
  match underlying.2 with
  | none => (underlying.1, none)
  | some e => (underlying.1, opError .opWrite (some e) (some c.localAddr) (some c.remote))

/-- Model of Conn.Close: wraps fd.Close()'s result with tag opClose. -/
def Conn.Close (c : Conn) (fdCloseResult : Option GoErr) : Option Err :=
  opError .opClose fdCloseResult (some c.localAddr) (some c.remote)

/-- The branch sysConnFD.Shutdown takes: forwarding `how` to the shutdown
syscall, or the invalid-constant error branch. -/
inductive ShutdownCall where
  | syscall (how : Nat) (r : Option GoErr)
  | invalidHow (how : Nat)
deriving DecidableEq

/-- Model of sysConnFD.Shutdown (fd layer): how values unix.SHUT_RD and
unix.SHUT_WR are forwarded to the shutdown syscall; any other value takes
the fmt.Errorf invalid-constant branch. -/
def sysConnFD.Shutdown (shutdownSys : Nat → Option GoErr) (how : Nat) : ShutdownCall :=
  if how = SHUT_RD ∨ how = SHUT_WR then .syscall how (shutdownSys how)
  else .invalidHow how

/-- The error value a ShutdownCall produces (the invalid branch yields the
fmt.Errorf message of the source). -/
def ShutdownCall.toErr : ShutdownCall → Option GoErr
  | .syscall _ r => r
  | .invalidHow how =>
    some (.msg ("vsock: sysConnFD.Shutdown method invoked with invalid how constant: "
      ++ toString how))

/-- Model of Conn.CloseRead: fd.Shutdown(shutRd) wrapped with tag opClose. -/
def Conn.CloseRead (c : Conn) (shutdownSys : Nat → Option GoErr) : Option Err :=
  opError .opClose (sysConnFD.Shutdown shutdownSys shutRd).toErr
    (some c.localAddr) (some c.remote)

/-- Model of Conn.CloseWrite: fd.Shutdown(shutWr) wrapped with tag opClose. -/
def Conn.CloseWrite (c : Conn) (shutdownSys : Nat → Option GoErr) : Option Err :=
  opError .opClose (sysConnFD.Shutdown shutdownSys shutWr).toErr
    (some c.localAddr) (some c.remote)

/-! Hypervisor detection (part_003). -/

/-- Model of IsHypervisor: context-ID discovery (open /dev/vsock plus the
ioctl, given here as its outcome) failing yields false; otherwise the
discovered ID is compared with Host. -/
def IsHypervisor (ctxResult : Except GoErr Nat) : Bool :=
  match ctxResult with
  | .error _ => false
  | .ok cid => cid == Host

/-! Helper lemmas. -/

/-- The name an Addr gives its os.File always starts with the network name
and so never equals the /dev/vsock device path. -/
theorem fileName_ne_devVsock (a : Addr) : a.fileName ≠ devVsock := by
  intro h
  have h2 := congrArg String.data h
  simp only [Addr.fileName, network, devVsock, String.data_append] at h2
  simp only [List.cons_append, List.nil_append] at h2
  injection h2 with h3 _
  exact absurd h3 (by decide)

/-- Unwrapping a PathError whose path is an Addr fileName yields the inner
error. -/
theorem unwrapPath_fileName (op : String) (a : Addr) (inner : GoErr) :
    unwrapPath (.pathError op a.fileName inner) = inner := by
  simp [unwrapPath, fileName_ne_devVsock a]

/-- opError on an EOF-like cause returns the bare io.EOF value. -/
theorem opError_some_eof (op : ErrOp) (loc rem : Option Addr) (e : GoErr)
    (h : isEOFLike (unwrapPath e) = true) :
    opError op (some e) loc rem = some (.go .eof) := by
  simp [opError, h]

/-- opError on a cause that is not EOF-like builds the net.OpError envelope. -/
theorem opError_some_not_eof (op : ErrOp) (loc rem : Option Addr) (e : GoErr)
    (h : isEOFLike (unwrapPath e) = false) :
    opError op (some e) loc rem = some (.opErr
      { op := op.toString
        net := network
        source := if op.sourceful then loc else none
        addr := if op.sourceful then rem else loc
        cause := normalizeClosed (unwrapPath e) }) := by
  simp [opError, h]

/-- isErrno with the enotconn parameter is equality with the ENOTCONN errno. -/
theorem isErrno_enotconn (e : GoErr) : isErrno e enotconn = (e == .errno enotconn) := rfl

/-- isErrno with the ebadf parameter is equality with the EBADF errno. -/
theorem isErrno_ebadf (e : GoErr) : isErrno e ebadf = (e == .errno ebadf) := rfl

/-- The readiness-driven accept loop lands on the first non-transient
syscall outcome whenever one exists, whatever the starting variable
state. -/
theorem runAcceptRead_first (outs : List AcceptOutcome) (v : AcceptVars)
    (h : ∃ o ∈ outs, isTransient o = false) :
    ∃ o, firstNonTransient outs = some o ∧ isTransient o = false ∧
      runAcceptRead outs v = setVars o := by
  induction outs generalizing v with
  | nil =>
    rcases h with ⟨o, ho, _⟩
    exact absurd ho (List.not_mem_nil o)
  | cons a rest ih =>
    by_cases ha : isTransient a = true
    · have h2 : ∃ o ∈ rest, isTransient o = false := by
        rcases h with ⟨o, ho, hno⟩
        rcases List.mem_cons.mp ho with rfl | hmem
        · rw [ha] at hno; exact absurd hno (by decide)
        · exact ⟨o, hmem, hno⟩
      rcases ih (setVars a) h2 with ⟨o, h1, h2b, h3⟩
      refine ⟨o, ?_, h2b, ?_⟩
      · simp [firstNonTransient, ha, h1]
      · simp [runAcceptRead, ha, h3]
    · have ha2 : isTransient a = false := by
        cases hx : isTransient a
        · rfl
        · exact absurd hx ha
      refine ⟨a, ?_, ha2, ?_⟩
      · simp [firstNonTransient, ha2]
      · simp [runAcceptRead, ha2]

/-! Claim theorems. -/

/-- C1: the claim asserts that every accept-syscall failure other than
EAGAIN and ECONNABORTED is wrapped with op tag "accept" and surfaced.  On
the code this is false: sysListenFD.accept4 ends with
`return newFD, socketAddress, nil`, discarding the error captured by the
closure, so a failure such as EMFILE (errno 24) produces a nil error
together with a nil sockaddr, and Accept then panics on the sockaddr type
assertion instead of surfacing an accept-tagged error. -/
theorem c1_accept_error_dropped :
    (sysListenFD.accept4 none [.err (.errno 24)]).2.2 = none
  ∧ VsockListener.Accept ⟨2, 5⟩ none [.err (.errno 24)] none = .panicked :=
  ⟨rfl, rfl⟩

/-- C2: the claim asserts that every post-creation setup failure releases
the raw descriptor via EarlyClose.  dialLinux conforms (named return err,
read by the deferred cleanup), but in listenLinux the if-scoped err of the
Bind, Listen and SetNonblocking checks shadows the outer err the deferred
cleanup reads, so on those three failure paths the error is returned with
earlyClosed = false (a descriptor leak); only a Getsockname failure
triggers EarlyClose. -/
theorem c2_listen_cleanup_defeated_by_shadowing :
    (listenLinux ⟨fun _ => some (.errno 98), fun _ => none, .ok ⟨3, 77⟩, none⟩ 3 5).result
        = .error (.errno 98)
  ∧ (listenLinux ⟨fun _ => some (.errno 98), fun _ => none, .ok ⟨3, 77⟩, none⟩ 3 5).earlyClosed
        = false
  ∧ (listenLinux ⟨fun _ => none, fun _ => some (.errno 98), .ok ⟨3, 77⟩, none⟩ 3 5).earlyClosed
        = false
  ∧ (listenLinux ⟨fun _ => none, fun _ => none, .ok ⟨3, 77⟩, some (.errno 9)⟩ 3 5).earlyClosed
        = false
  ∧ (listenLinux ⟨fun _ => none, fun _ => none, .error (.errno 9), none⟩ 3 5).earlyClosed
        = true
  ∧ (dialLinux ⟨fun _ => some (.errno 111), .ok ⟨3, 77⟩, none⟩ 3 5).earlyClosed
        = true :=
  ⟨rfl, rfl, rfl, rfl, rfl, rfl⟩

/-- C3: the claim asserts that no core operation panics.  On the code this
is false: because accept4 discards the captured error, a non-transient
accept failure (here EINTR, errno 4) reaches listener.Accept as a nil
error with a nil sockaddr, and the unchecked type assertion
sa.(*unix.SockaddrVM) panics. -/
theorem c3_accept_panics_on_syscall_failure :
    listener.Accept ⟨2, 5⟩ none [.err (.errno 4)] none = .panicked := rfl

/-- C4: a second close of a Connection does not crash (the classifier is a
total function) and yields a canonical envelope whose cause is the single
normalized "use of closed network connection" error: the second
fd.Close yields an os.PathError wrapping os.ErrClosed under the file's
vsock name, which opError unwraps and normalizes.  More generally, any
error whose device-path-unwrapped value equals os.ErrClosed, equals the
EBADF errno, or has text containing "use of closed" is normalized to that
single cause (and errors other than PathError are left unchanged by the
unwrap, so for them the hypothesis reads directly on the underlying
error). -/
theorem c4_double_close_normalized :
    (∀ (a b : Addr),
       Conn.Close ⟨a, b⟩ (some (.pathError "close" (Addr.fileName a) .errClosed)) =
         some (.opErr ⟨"close", network, some a, some b,
           .msg "use of closed network connection"⟩))
  ∧ (∀ (op : ErrOp) (loc rem : Option Addr) (e : GoErr),
       (unwrapPath e = .errClosed ∨ isErrno (unwrapPath e) ebadf = true ∨
          containsSubstr (errMessage (unwrapPath e)) "use of closed" = true) →
       ∃ o : OpError, opError op (some e) loc rem = some (.opErr o) ∧
         o.cause = .msg "use of closed network connection")
  ∧ (∀ e : GoErr, (∀ op path inner, e ≠ .pathError op path inner) → unwrapPath e = e) := by
  refine ⟨?_, ?_, ?_⟩
  · intro a b
    have hu := unwrapPath_fileName "close" a .errClosed
    have h1 : isEOFLike (unwrapPath (.pathError "close" (Addr.fileName a) .errClosed)) = false := by
      rw [hu]; rfl
    show opError .opClose (some (.pathError "close" (Addr.fileName a) .errClosed))
        (some a) (some b) = _
    rw [opError_some_not_eof _ _ _ _ h1, hu]
    rfl
  · intro op loc rem e h
    have heof : isEOFLike (unwrapPath e) = false := by
      rcases h with h | h | h
      · rw [h]; rfl
      · rw [isErrno_ebadf, beq_iff_eq] at h
        rw [h]; rfl
      · cases hx : isEOFLike (unwrapPath e)
        · rfl
        · exfalso
          simp only [isEOFLike, isErrno_enotconn, Bool.or_eq_true, beq_iff_eq] at hx
          rcases hx with hx | hx <;> rw [hx] at h <;> exact absurd h (by decide)
    refine ⟨_, opError_some_not_eof op loc rem e heof, ?_⟩
    show normalizeClosed (unwrapPath e) = .msg "use of closed network connection"
    have hc : isClosedLike (unwrapPath e) = true := by
      rcases h with h | h | h
      · rw [h]; rfl
      · simp [isClosedLike, h]
      · simp [isClosedLike, h]
    rw [normalizeClosed, hc]
    rfl
  · intro e he
    cases e with
    | eof => rfl
    | errClosed => rfl
    | errno n => rfl
    | pathError op path inner => exact absurd rfl (he op path inner)
    | msg s => rfl

/-- C4 witness: the theorem applied to the plain os.ErrClosed cause on a
close operation with concrete addresses. -/
theorem c4_witness :
    (unwrapPath GoErr.errClosed = .errClosed ∨
       isErrno (unwrapPath GoErr.errClosed) ebadf = true ∨
       containsSubstr (errMessage (unwrapPath GoErr.errClosed)) "use of closed" = true)
  ∧ ∃ o : OpError,
      opError .opClose (some .errClosed) (some ⟨2, 5⟩) (some ⟨3, 7⟩) = some (.opErr o)
      ∧ o.cause = .msg "use of closed network connection" :=
  ⟨Or.inl rfl,
   c4_double_close_normalized.2.1 .opClose (some ⟨2, 5⟩) (some ⟨3, 7⟩) .errClosed (Or.inl rfl)⟩

/-- C5: a read whose underlying result reports end of stream (io.EOF) or
the ENOTCONN peer-disconnected errno returns zero bytes with the bare
io.EOF value, not an envelope; every other read failure is wrapped as a
net.OpError tagged "read" carrying source = local and addr = remote. -/
theorem c5_read_eof_normalization :
    (∀ c : Conn,
       Conn.Read c (0, some .eof) = (0, some (.go .eof))
     ∧ Conn.Read c (0, some (.errno enotconn)) = (0, some (.go .eof)))
  ∧ (∀ (c : Conn) (n : Int) (e : GoErr),
       isEOFLike (unwrapPath e) = false →
       ∃ o : OpError, Conn.Read c (n, some e) = (n, some (.opErr o))
         ∧ o.op = "read" ∧ o.net = network
         ∧ o.source = some c.localAddr ∧ o.addr = some c.remote) := by
  constructor
  · intro c
    exact ⟨rfl, rfl⟩
  · intro c n e h
    refine ⟨⟨ErrOp.toString .opRead, network,
       if ErrOp.sourceful .opRead then some c.localAddr else none,
       if ErrOp.sourceful .opRead then some c.remote else some c.localAddr,
       normalizeClosed (unwrapPath e)⟩, ?_, rfl, rfl, rfl, rfl⟩
    simp only [Conn.Read]
    rw [opError_some_not_eof _ _ _ _ h]

/-- C5 witness: the theorem applied to a concrete non-EOF failure (EIO,
errno 5) on a connection with concrete addresses. -/
theorem c5_witness :
    isEOFLike (unwrapPath (GoErr.errno 5)) = false
  ∧ ∃ o : OpError, Conn.Read ⟨⟨2, 5⟩, ⟨3, 7⟩⟩ (0, some (.errno 5)) = (0, some (.opErr o))
      ∧ o.op = "read" ∧ o.net = network
      ∧ o.source = some (⟨2, 5⟩ : Addr) ∧ o.addr = some (⟨3, 7⟩ : Addr) :=
  ⟨rfl, c5_read_eof_normalization.2 ⟨⟨2, 5⟩, ⟨3, 7⟩⟩ 0 (.errno 5) rfl⟩

/-- C6: transient accept outcomes (EAGAIN, ECONNABORTED) make the closure
return false so the poller retries the syscall: whenever the outcome
sequence contains a non-transient outcome, the loop lands exactly on the
first such outcome, and the caller of Accept never receives an EAGAIN or
ECONNABORTED error from the accept syscall. -/
theorem c6_transient_accept_retried :
    (∀ (outs : List AcceptOutcome) (v : AcceptVars),
       (∃ o ∈ outs, isTransient o = false) →
       ∃ o, firstNonTransient outs = some o ∧ isTransient o = false ∧
         runAcceptRead outs v = setVars o)
  ∧ (∀ (laddr : Addr) (outs : List AcceptOutcome),
       (∃ o ∈ outs, isTransient o = false) →
       ∀ e : GoErr, listener.Accept laddr none outs none = .err e →
         e ≠ .errno eagain ∧ e ≠ .errno econnaborted) := by
  constructor
  · exact runAcceptRead_first
  · intro laddr outs _ e he
    exfalso
    simp only [listener.Accept, sysListenFD.accept4] at he
    cases hsa : (runAcceptRead outs ⟨0, none, none⟩).sa with
    | none => rw [hsa] at he; exact absurd he (by simp)
    | some s => rw [hsa] at he; exact absurd he (by simp)

/-- C6 witness: the loop applied to two transient outcomes followed by a
success. -/
theorem c6_witness :
    (∃ o ∈ ([.err (.errno eagain), .err (.errno econnaborted),
        .ok 7 ⟨3, 9⟩] : List AcceptOutcome), isTransient o = false)
  ∧ ∃ o, firstNonTransient
        [.err (.errno eagain), .err (.errno econnaborted), .ok 7 ⟨3, 9⟩] = some o
      ∧ isTransient o = false
      ∧ runAcceptRead [.err (.errno eagain), .err (.errno econnaborted), .ok 7 ⟨3, 9⟩]
          ⟨0, none, none⟩ = setVars o :=
  ⟨⟨.ok 7 ⟨3, 9⟩, by decide, rfl⟩,
   c6_transient_accept_retried.1 _ ⟨0, none, none⟩ ⟨.ok 7 ⟨3, 9⟩, by decide, rfl⟩⟩

/-- C7: every net.OpError envelope the classifier produces carries the
vsock network name, an op tag that is the rendering of one of the eleven
operation constants, and addresses split by operation class: the
dial/close/read/write/raw-read/raw-write class reports source = local and
addr = remote (each when known), the accept/listen/raw-control/set/
syscall-conn class reports only addr = local with no source. -/
theorem c7_error_envelope_shape :
    ∀ (op : ErrOp) (e : GoErr) (loc rem : Option Addr) (o : OpError),
      opError op (some e) loc rem = some (.opErr o) →
        o.net = network
      ∧ o.op = op.toString
      ∧ o.op ∈ ["dial", "listen", "accept", "close", "read", "write", "set",
          "raw-control", "raw-read", "raw-write", "syscall-conn"]
      ∧ (op.sourceful = true → o.source = loc ∧ o.addr = rem)
      ∧ (op.sourceful = false → o.source = none ∧ o.addr = loc)
      ∧ (op.sourceful = true ↔
          (op = .opDial ∨ op = .opClose ∨ op = .opRead ∨ op = .opWrite ∨
           op = .opRawRead ∨ op = .opRawWrite)) := by
  intro op e loc rem o h
  cases he : isEOFLike (unwrapPath e) with
  | true =>
    rw [opError_some_eof op loc rem e he] at h
    exact absurd h (by simp)
  | false =>
    rw [opError_some_not_eof op loc rem e he] at h
    have ho : o = ⟨op.toString, network, if op.sourceful then loc else none,
        if op.sourceful then rem else loc, normalizeClosed (unwrapPath e)⟩ := by
      simp only [Option.some.injEq, Err.opErr.injEq] at h
      exact h.symm
    subst ho
    have hmem : ErrOp.toString op ∈ ["dial", "listen", "accept", "close", "read", "write",
        "set", "raw-control", "raw-read", "raw-write", "syscall-conn"] := by
      cases op <;> decide
    have hiff : op.sourceful = true ↔
        (op = .opDial ∨ op = .opClose ∨ op = .opRead ∨ op = .opWrite ∨
         op = .opRawRead ∨ op = .opRawWrite) := by
      cases op <;> decide
    refine ⟨rfl, rfl, hmem, ?_, ?_, hiff⟩
    · intro hs; simp [hs]
    · intro hs; simp [hs]

/-- C7 witness: the theorem applied to a concrete accept-time failure
(EADDRINUSE) with a known local address and no remote. -/
theorem c7_witness :
    (opError .opAccept (some (.errno 98)) (some ⟨2, 5⟩) none =
        some (.opErr ⟨"accept", network, none, some ⟨2, 5⟩, .errno 98⟩))
  ∧ ((⟨"accept", network, none, some ⟨2, 5⟩, .errno 98⟩ : OpError).net = network
    ∧ (⟨"accept", network, none, some ⟨2, 5⟩, .errno 98⟩ : OpError).op
        = ErrOp.toString .opAccept
    ∧ (⟨"accept", network, none, some ⟨2, 5⟩, .errno 98⟩ : OpError).op
        ∈ ["dial", "listen", "accept", "close", "read", "write", "set",
           "raw-control", "raw-read", "raw-write", "syscall-conn"]
    ∧ (ErrOp.sourceful .opAccept = true →
        (⟨"accept", network, none, some ⟨2, 5⟩, .errno 98⟩ : OpError).source = some ⟨2, 5⟩
        ∧ (⟨"accept", network, none, some ⟨2, 5⟩, .errno 98⟩ : OpError).addr = none)
    ∧ (ErrOp.sourceful .opAccept = false →
        (⟨"accept", network, none, some ⟨2, 5⟩, .errno 98⟩ : OpError).source = none
        ∧ (⟨"accept", network, none, some ⟨2, 5⟩, .errno 98⟩ : OpError).addr = some ⟨2, 5⟩)
    ∧ (ErrOp.sourceful .opAccept = true ↔
        (ErrOp.opAccept = .opDial ∨ ErrOp.opAccept = .opClose ∨ ErrOp.opAccept = .opRead
         ∨ ErrOp.opAccept = .opWrite ∨ ErrOp.opAccept = .opRawRead
         ∨ ErrOp.opAccept = .opRawWrite))) :=
  ⟨rfl, c7_error_envelope_shape .opAccept (.errno 98) (some ⟨2, 5⟩) none _ rfl⟩

/-- C8: a successful listenLinux(cid, port) binds to the sockaddr with
port 0 first replaced by unix.VMADDR_PORT_ANY, listens with backlog
unix.SOMAXCONN, and stores in the returned Listener exactly the address
Getsockname reported back, so with port 0 a nonzero resolved ephemeral
port is what the returned address carries. -/
theorem c8_listen_bind_backlog_resolved_addr :
    ∀ (os : ListenOS) (cid port : Nat) (l : VsockListener),
      (listenLinux os cid port).result = .ok l →
        (listenLinux os cid port).boundAddr =
            some ⟨cid, if port = 0 then VMADDR_PORT_ANY else port⟩
      ∧ (listenLinux os cid port).listenBacklog = some SOMAXCONN
      ∧ ∃ lsa : SockaddrVM, os.getsocknameResult = .ok lsa
          ∧ l.addr = ⟨lsa.CID, lsa.Port⟩
          ∧ (lsa.Port ≠ 0 → l.addr.Port ≠ 0) := by
  intro os cid port l h
  cases hb : os.bindResult ⟨cid, if port = 0 then VMADDR_PORT_ANY else port⟩ with
  | some e => simp [listenLinux, hb] at h
  | none =>
    cases hl : os.listenResult SOMAXCONN with
    | some e => simp [listenLinux, hb, hl] at h
    | none =>
      cases hg : os.getsocknameResult with
      | error e => simp [listenLinux, hb, hl, hg] at h
      | ok lsa =>
        cases hs : os.setNonblockingResult with
        | some e => simp [listenLinux, hb, hl, hg, hs] at h
        | none =>
          have hl2 : l = ⟨⟨lsa.CID, lsa.Port⟩⟩ := by
            simp only [listenLinux, hb, hl, hg, hs, Except.ok.injEq] at h
            exact h.symm
          subst hl2
          refine ⟨?_, ?_, lsa, rfl, rfl, fun hp => hp⟩
          · simp [listenLinux, hb, hl, hg, hs]
          · simp [listenLinux, hb, hl, hg, hs]

/-- C8 witness: the theorem applied to an oracle that resolves port 0 to
the ephemeral port 42424. -/
theorem c8_witness :
    ((listenLinux ⟨fun _ => none, fun _ => none, .ok ⟨3, 42424⟩, none⟩ 3 0).result
        = .ok ⟨⟨3, 42424⟩⟩)
  ∧ ((listenLinux ⟨fun _ => none, fun _ => none, .ok ⟨3, 42424⟩, none⟩ 3 0).boundAddr
        = some ⟨3, if (0 : Nat) = 0 then VMADDR_PORT_ANY else 0⟩
    ∧ (listenLinux ⟨fun _ => none, fun _ => none, .ok ⟨3, 42424⟩, none⟩ 3 0).listenBacklog
        = some SOMAXCONN
    ∧ ∃ lsa : SockaddrVM,
        (ListenOS.mk (fun _ => none) (fun _ => none) (.ok ⟨3, 42424⟩) none).getsocknameResult
          = .ok lsa
        ∧ (⟨⟨3, 42424⟩⟩ : VsockListener).addr = ⟨lsa.CID, lsa.Port⟩
        ∧ (lsa.Port ≠ 0 → (⟨⟨3, 42424⟩⟩ : VsockListener).addr.Port ≠ 0)) :=
  ⟨rfl, c8_listen_bind_backlog_resolved_addr
    ⟨fun _ => none, fun _ => none, .ok ⟨3, 42424⟩, none⟩ 3 0 ⟨⟨3, 42424⟩⟩ rfl⟩

/-- C9: IsHypervisor is true exactly when context-ID discovery succeeded
with the Host well-known identifier 2, and every discovery failure yields
false (the boolean return type carries no error). -/
theorem c9_is_hypervisor_characterization :
    Host = 2
  ∧ (∀ r : Except GoErr Nat, IsHypervisor r = true ↔ r = .ok Host)
  ∧ (∀ e : GoErr, IsHypervisor (.error e) = false) := by
  refine ⟨rfl, ?_, fun e => rfl⟩
  intro r
  cases r with
  | error e => simp [IsHypervisor]
  | ok cid => simp [IsHypervisor]

/-- C10: the direction constants the public half-close operations pass to
Shutdown (shutRd = 0 = SHUT_RD, shutWr = 1 = SHUT_WR) are inside the set
Shutdown accepts, so CloseRead and CloseWrite always reach the shutdown
syscall and the invalid-constant branch fires only for values outside
that set. -/
theorem c10_halfclose_shutdown_in_range :
    (shutRd = SHUT_RD ∧ shutWr = SHUT_WR)
  ∧ (∀ sys : Nat → Option GoErr,
       sysConnFD.Shutdown sys shutRd = .syscall shutRd (sys shutRd)
     ∧ sysConnFD.Shutdown sys shutWr = .syscall shutWr (sys shutWr))
  ∧ (∀ (c : Conn) (sys : Nat → Option GoErr),
       Conn.CloseRead c sys = opError .opClose (sys shutRd) (some c.localAddr) (some c.remote)
     ∧ Conn.CloseWrite c sys = opError .opClose (sys shutWr) (some c.localAddr) (some c.remote))
  ∧ (∀ (sys : Nat → Option GoErr) (how : Nat),
       how ≠ SHUT_RD → how ≠ SHUT_WR → sysConnFD.Shutdown sys how = .invalidHow how) := by
  refine ⟨⟨rfl, rfl⟩, fun sys => ⟨rfl, rfl⟩, fun c sys => ⟨rfl, rfl⟩, ?_⟩
  intro sys how h0 h1
  simp [sysConnFD.Shutdown, h0, h1]

/-- C10 witness: the theorem applied at the out-of-range direction 5. -/
theorem c10_witness :
    ((5 : Nat) ≠ SHUT_RD) ∧ ((5 : Nat) ≠ SHUT_WR)
  ∧ sysConnFD.Shutdown (fun _ => none) 5 = .invalidHow 5 :=
  ⟨by decide, by decide,
   c10_halfclose_shutdown_in_range.2.2.2 (fun _ => none) 5 (by decide) (by decide)⟩

end Vcable
